import Mathlib

/- Shallow embedding of the wrapper layer of the PulseAudio Rust binding
   (src/pulse-binding/src/context/mod.rs and src/pulse-binding/src/stream.rs).

   The foreign library is treated as an oracle: each wrapper method is embedded
   as a function of the values returned by the foreign calls it makes, and it
   yields the result the wrapper hands back together with the list of foreign
   calls issued on that execution, plus an explicit panic flag at the places
   where the source can panic (unwrap of a failed result, debug assertion).

   Pointers are modelled as natural numbers, where 0 is the null pointer.
   Machine integer returns of the C ABI are modelled as Nat (unsigned u32 and
   usize values) and Int (signed c int and i64 values). -/

namespace Pulse

/-- Foreign functions of the native library that the modelled wrapper methods
can invoke. Used to record call traces of the wrapper executions. -/
inductive FCall where
  /-- pa_context_ref -/
  | paContextRef
  /-- pa_context_unref -/
  | paContextUnref
  /-- pa_stream_disconnect -/
  | paStreamDisconnect
  /-- pa_stream_unref -/
  | paStreamUnref
  /-- pa_stream_get_context -/
  | paStreamGetContext
  /-- pa_stream_get_sample_spec -/
  | paStreamGetSampleSpec
  /-- pa_stream_write -/
  | paStreamWrite
  /-- pa_stream_write_ext_free -/
  | paStreamWriteExtFree
  deriving DecidableEq, Repr

/-- The Context wrapper struct: a raw pointer to the foreign object plus the
weak flag used to avoid freeing the internal object when used as a weak
wrapper in callbacks (context/mod.rs, struct Context). -/
structure Context where
  ptr : Nat
  weak : Bool
  deriving DecidableEq, Repr

/-- The Stream wrapper struct: a raw pointer to the foreign object plus the
weak flag (stream.rs, struct Stream). -/
structure Stream where
  ptr : Nat
  weak : Bool
  deriving DecidableEq, Repr

/-- Modelled from the spec: the sentinel constant INVALID_INDEX lives in the
def module of this repository, which is not among the provided sources; the
spec says a maximum-unsigned-value sentinel marks an invalid index, and the
values compared against it here are unsigned 32-bit. -/
def INVALID_INDEX : Nat := 4294967295

/-- std usize MAX for the 64-bit targets this crate addresses; the sentinel
compared against usize returns in get_tile_size, writable_size and
readable_size. -/
def USIZE_MAX : Nat := 18446744073709551615

/-- Modelled from the spec: the distinguished NoData error code lives in the
error module of this repository, which is not among the provided sources; the
spec only requires it to be the distinguished no-data code, negated at the
boundary. Its value in the wrapped native library is 16. -/
def ErrorCode.NoData : Int := 16

/-- Context::from_raw (context/mod.rs): wraps a non-null foreign pointer into
an owning handle (the source asserts the pointer is non-null). -/
def Context.from_raw (ptr : Nat) : Context := ⟨ptr, false⟩

/-- Context::from_raw_weak (context/mod.rs): wraps a non-null foreign pointer
into a weak handle, which avoids destroying the internal object when dropped. -/
def Context.from_raw_weak (ptr : Nat) : Context := ⟨ptr, true⟩

/-- Stream::from_raw (stream.rs): wraps a non-null foreign pointer into an
owning handle. -/
def Stream.from_raw (ptr : Nat) : Stream := ⟨ptr, false⟩

/-- Stream::from_raw_weak (stream.rs): wraps a non-null foreign pointer into a
weak handle. -/
def Stream.from_raw_weak (ptr : Nat) : Stream := ⟨ptr, true⟩

/-- Context::new (context/mod.rs): argument is the pointer returned by the
foreign pa_context_new call; null yields None, otherwise from_raw wraps it. -/
def Context.new (ret_ptr : Nat) : Option Context :=
  if ret_ptr = 0 then none else some (Context.from_raw ret_ptr)

/-- Context::new_with_proplist (context/mod.rs): same null check on the
pointer returned by pa_context_new_with_proplist. -/
def Context.new_with_proplist (ret_ptr : Nat) : Option Context :=
  if ret_ptr = 0 then none else some (Context.from_raw ret_ptr)

/-- Stream::new (stream.rs): null check on the pointer returned by
pa_stream_new. -/
def Stream.new (ret_ptr : Nat) : Option Stream :=
  if ret_ptr = 0 then none else some (Stream.from_raw ret_ptr)

/-- Stream::new_with_proplist (stream.rs): null check on the pointer returned
by pa_stream_new_with_proplist. -/
def Stream.new_with_proplist (ret_ptr : Nat) : Option Stream :=
  if ret_ptr = 0 then none else some (Stream.from_raw ret_ptr)

/-- Stream::new_extended (stream.rs): null check on the pointer returned by
pa_stream_new_extended. -/
def Stream.new_extended (ret_ptr : Nat) : Option Stream :=
  if ret_ptr = 0 then none else some (Stream.from_raw ret_ptr)

/-- Context::get_index (context/mod.rs): sentinel translation of the u32
returned by pa_context_get_index. -/
def Context.get_index (ret : Nat) : Option Nat :=
  if ret = INVALID_INDEX then none else some ret

/-- Context::get_server_protocol_version (context/mod.rs): sentinel
translation of the u32 returned by the foreign call. -/
def Context.get_server_protocol_version (ret : Nat) : Option Nat :=
  if ret = INVALID_INDEX then none else some ret

/-- Context::get_tile_size (context/mod.rs): sentinel translation of the
usize returned by pa_context_get_tile_size. -/
def Context.get_tile_size (ret : Nat) : Option Nat :=
  if ret = USIZE_MAX then none else some ret

/-- Stream::get_index (stream.rs): sentinel translation of the u32 returned by
pa_stream_get_index. -/
def Stream.get_index (ret : Nat) : Option Nat :=
  if ret = INVALID_INDEX then none else some ret

/-- Stream::get_device_index (stream.rs): sentinel translation of the u32
returned by pa_stream_get_device_index. -/
def Stream.get_device_index (ret : Nat) : Option Nat :=
  if ret = INVALID_INDEX then none else some ret

/-- Stream::writable_size (stream.rs): sentinel translation of the usize
returned by pa_stream_writable_size. -/
def Stream.writable_size (ret : Nat) : Option Nat :=
  if ret = USIZE_MAX then none else some ret

/-- Stream::readable_size (stream.rs): sentinel translation of the usize
returned by pa_stream_readable_size. -/
def Stream.readable_size (ret : Nat) : Option Nat :=
  if ret = USIZE_MAX then none else some ret

/-- Stream::get_underflow_index (stream.rs): the i64 returned by the foreign
call, with -1 translated to None. -/
def Stream.get_underflow_index (ret : Int) : Option Int :=
  if ret = -1 then none else some ret

/-- Stream::get_monitor_stream (stream.rs): sentinel translation of the u32
returned by pa_stream_get_monitor_stream. -/
def Stream.get_monitor_stream (ret : Nat) : Option Nat :=
  if ret = INVALID_INDEX then none else some ret

/-- Context::connect (context/mod.rs): the c int returned by
pa_context_connect, zero becoming Ok and anything else Err of that code. -/
def Context.connect (ret : Int) : Except Int Unit :=
  if ret = 0 then Except.ok () else Except.error ret

/-- Context::load_cookie_from_file (context/mod.rs): result translation of the
c int returned by the foreign call. -/
def Context.load_cookie_from_file (ret : Int) : Except Int Unit :=
  if ret = 0 then Except.ok () else Except.error ret

/-- Stream::connect_playback (stream.rs): result translation of the c int
returned by pa_stream_connect_playback. -/
def Stream.connect_playback (ret : Int) : Except Int Unit :=
  if ret = 0 then Except.ok () else Except.error ret

/-- Stream::connect_record (stream.rs): result translation of the c int
returned by pa_stream_connect_record. -/
def Stream.connect_record (ret : Int) : Except Int Unit :=
  if ret = 0 then Except.ok () else Except.error ret

/-- Stream::connect_upload (stream.rs): result translation of the c int
returned by pa_stream_connect_upload. -/
def Stream.connect_upload (ret : Int) : Except Int Unit :=
  if ret = 0 then Except.ok () else Except.error ret

/-- Stream::finish_upload (stream.rs): result translation of the c int
returned by pa_stream_finish_upload. -/
def Stream.finish_upload (ret : Int) : Except Int Unit :=
  if ret = 0 then Except.ok () else Except.error ret

/-- Stream::disconnect (stream.rs): result translation of the c int returned
by pa_stream_disconnect. -/
def Stream.disconnect (ret : Int) : Except Int Unit :=
  if ret = 0 then Except.ok () else Except.error ret

/-- Stream::cancel_write (stream.rs): result translation of the c int returned
by pa_stream_cancel_write. -/
def Stream.cancel_write (ret : Int) : Except Int Unit :=
  if ret = 0 then Except.ok () else Except.error ret

/-- Stream::discard (stream.rs): result translation of the c int returned by
pa_stream_drop. -/
def Stream.discard (ret : Int) : Except Int Unit :=
  if ret = 0 then Except.ok () else Except.error ret

/-- Stream::set_monitor_stream (stream.rs): result translation of the c int
returned by pa_stream_set_monitor_stream. -/
def Stream.set_monitor_stream (ret : Int) : Except Int Unit :=
  if ret = 0 then Except.ok () else Except.error ret

/-- PeekResult (stream.rs): outcome of Stream::peek. The Data variant carries
the slice built from the raw pointer and length the foreign call produced. -/
inductive PeekResult where
  | Empty
  | Hole (n : Nat)
  | Data (ptr : Nat) (len : Nat)
  deriving DecidableEq, Repr

/-- Stream::peek (stream.rs): arguments are the c int return of
pa_stream_peek and the data pointer and byte count it wrote through its out
parameters; the match arms of the source are mirrored in order. -/
def Stream.peek (ret : Int) (data_ptr : Nat) (nbytes : Nat) :
    Except Int PeekResult :=
  if ret = 0 then
    if data_ptr = 0 ∧ nbytes = 0 then Except.ok PeekResult.Empty
    else if data_ptr = 0 then Except.ok (PeekResult.Hole nbytes)
    else Except.ok (PeekResult.Data data_ptr nbytes)
  else Except.error ret

/-- Latency (stream.rs): result type of Stream::get_latency. -/
inductive Latency where
  | None
  | Positive (u : Nat)
  | Negative (u : Nat)
  deriving DecidableEq, Repr

/-- Stream::get_time (stream.rs): arguments are the c int return of
pa_stream_get_time and the microsecond value written through its out
parameter; the negated NoData code becomes the Ok-none outcome. -/
def Stream.get_time (ret : Int) (r_usecs : Nat) : Except Int (Option Nat) :=
  if ret = 0 then Except.ok (some r_usecs)
  else if ret = -ErrorCode.NoData then Except.ok none
  else Except.error ret

/-- Stream::get_latency (stream.rs): arguments are the c int return of
pa_stream_get_latency and the microseconds and negative flag written through
its out parameters. -/
def Stream.get_latency (ret : Int) (r_usecs : Nat) (negative : Int) :
    Except Int Latency :=
  if ret = 0 then
    if negative = 1 then Except.ok (Latency.Negative r_usecs)
    else Except.ok (Latency.Positive r_usecs)
  else if ret = -ErrorCode.NoData then Except.ok Latency.None
  else Except.error ret

/-- Execution record of a wrapper method: the foreign calls it issued, whether
it panicked, and the value it returned when it did not panic. -/
structure Exec (α : Type) where
  calls : List FCall
  panicked : Bool
  result : Option α
  deriving Repr

/-- usize checked_rem of the Rust standard library: none on a zero divisor. -/
def checked_rem (a b : Nat) : Option Nat :=
  if b = 0 then none else some (a % b)

/-- Stream::get_context (stream.rs): the raw pointer returned by
pa_stream_get_context is fed directly into Context::from_raw, whose
assert_eq on nullness is active in all builds, so a null foreign return
panics instead of being propagated; a non-null return is wrapped into an
owning Context handle. -/
def Stream.get_context (ret_ptr : Nat) : Exec Context :=
  if ret_ptr = 0 then ⟨[FCall.paStreamGetContext], true, none⟩
  else ⟨[FCall.paStreamGetContext], false, some (Context.from_raw ret_ptr)⟩

/-- Stream::write (stream.rs). Arguments: whether the build has debug
assertions enabled (debug_assert_eq compiles to nothing otherwise), the frame
size of the sample spec pa_stream_get_sample_spec returns (none when it
returns null), the byte length of the data slice, and the c int return of
pa_stream_write. In a debug build the sample spec query is unwrapped (panic
on null) and the checked remainder of the length by the frame size is
unwrapped (panic on zero frame size) and asserted to be zero (panic when the
length is misaligned), all before pa_stream_write is invoked. -/
def Stream.write (dbg : Bool) (frame_size : Option Nat) (data_len : Nat)
    (write_ret : Int) : Exec (Except Int Unit) :=
  if dbg then
    match frame_size with
    | none => ⟨[FCall.paStreamGetSampleSpec], true, none⟩
    | some fs =>
      match checked_rem data_len fs with
      | none => ⟨[FCall.paStreamGetSampleSpec], true, none⟩
      | some rem =>
        if rem = 0 then
          ⟨[FCall.paStreamGetSampleSpec, FCall.paStreamWrite], false,
            some (if write_ret = 0 then Except.ok () else Except.error write_ret)⟩
        else ⟨[FCall.paStreamGetSampleSpec], true, none⟩
  else
    ⟨[FCall.paStreamWrite], false,
      some (if write_ret = 0 then Except.ok () else Except.error write_ret)⟩

/-- Stream::write_ext_free (stream.rs): identical structure to Stream::write,
forwarding to pa_stream_write_ext_free instead. -/
def Stream.write_ext_free (dbg : Bool) (frame_size : Option Nat)
    (data_len : Nat) (write_ret : Int) : Exec (Except Int Unit) :=
  if dbg then
    match frame_size with
    | none => ⟨[FCall.paStreamGetSampleSpec], true, none⟩
    | some fs =>
      match checked_rem data_len fs with
      | none => ⟨[FCall.paStreamGetSampleSpec], true, none⟩
      | some rem =>
        if rem = 0 then
          ⟨[FCall.paStreamGetSampleSpec, FCall.paStreamWriteExtFree], false,
            some (if write_ret = 0 then Except.ok () else Except.error write_ret)⟩
        else ⟨[FCall.paStreamGetSampleSpec], true, none⟩
  else
    ⟨[FCall.paStreamWriteExtFree], false,
      some (if write_ret = 0 then Except.ok () else Except.error write_ret)⟩

/-- Drop for Context (context/mod.rs): unless weak, pa_context_unref is
called; then the stored pointer is nulled. Never panics. -/
def Context.drop (c : Context) : Exec Context :=
  if c.weak then ⟨[], false, some ⟨0, c.weak⟩⟩
  else ⟨[FCall.paContextUnref], false, some ⟨0, c.weak⟩⟩

/-- Drop for Stream (stream.rs): unless weak, disconnect is called and its
result unwrapped, so a non-zero c int return of pa_stream_disconnect panics
before pa_stream_unref and the pointer assignment are reached. The argument
is the c int pa_stream_disconnect returns. -/
def Stream.drop (s : Stream) (disconnect_ret : Int) : Exec Stream :=
  if s.weak then ⟨[], false, some ⟨0, s.weak⟩⟩
  else if disconnect_ret = 0 then
    ⟨[FCall.paStreamDisconnect, FCall.paStreamUnref], false, some ⟨0, s.weak⟩⟩
  else ⟨[FCall.paStreamDisconnect], true, none⟩

/-- Clone for Context (context/mod.rs): pa_context_ref is called on the stored
pointer, and from_raw wraps the same pointer into a new owning handle, also
when the original is weak. -/
def Context.clone (c : Context) : Exec Context :=
  ⟨[FCall.paContextRef], false, some (Context.from_raw c.ptr)⟩

/-- Helper: whenever Stream::write does not panic, its returned value is the
plain result translation of the c int pa_stream_write returned. -/
theorem Stream.write_result (dbg : Bool) (fs : Option Nat) (len : Nat)
    (r : Int) (h : (Stream.write dbg fs len r).panicked = false) :
    (Stream.write dbg fs len r).result =
      some (if r = 0 then Except.ok () else Except.error r) := by
  cases dbg with
  | false => simp [Stream.write]
  | true =>
    cases fs with
    | none => simp [Stream.write] at h
    | some f =>
      by_cases hf : f = 0
      · simp [Stream.write, checked_rem, hf] at h
      · by_cases hrem : len % f = 0
        · simp [Stream.write, checked_rem, hf, hrem]
        · simp [Stream.write, checked_rem, hf, hrem] at h

/-- Helper: same statement for Stream::write_ext_free. -/
theorem Stream.write_ext_free_result (dbg : Bool) (fs : Option Nat) (len : Nat)
    (r : Int) (h : (Stream.write_ext_free dbg fs len r).panicked = false) :
    (Stream.write_ext_free dbg fs len r).result =
      some (if r = 0 then Except.ok () else Except.error r) := by
  cases dbg with
  | false => simp [Stream.write_ext_free]
  | true =>
    cases fs with
    | none => simp [Stream.write_ext_free] at h
    | some f =>
      by_cases hf : f = 0
      · simp [Stream.write_ext_free, checked_rem, hf] at h
      · by_cases hrem : len % f = 0
        · simp [Stream.write_ext_free, checked_rem, hf, hrem]
        · simp [Stream.write_ext_free, checked_rem, hf, hrem] at h

/-- Claim C1, counterexample: destroying the owning (non-weak) Stream handle
with pointer 1 while the foreign disconnect call reports failure 5 does not
invoke pa_stream_unref at all (the drop panics first), refuting that owning
destruction always decrements exactly once. -/
theorem stream_drop_unref_once_refuted :
    (⟨1, false⟩ : Stream).weak = false ∧
    ¬ ((Stream.drop ⟨1, false⟩ 5).calls.count FCall.paStreamUnref = 1) := by
  decide

/-- Claim C1, amended: destroying an owning Context invokes
pa_context_unref exactly once and a weak Context zero times; destroying an
owning Stream invokes pa_stream_unref exactly once when the foreign
disconnect returns zero and zero times otherwise (the drop panics first);
destroying a weak Stream invokes it zero times. -/
theorem drop_unref_counts : ∀ (c : Context) (s : Stream) (r : Int),
    ((Context.drop c).calls.count FCall.paContextUnref =
      if c.weak then 0 else 1) ∧
    ((Stream.drop s r).calls.count FCall.paStreamUnref =
      if s.weak then 0 else if r = 0 then 1 else 0) := by
  intro c s r
  constructor
  · rcases c with ⟨p, w⟩
    cases w <;> simp [Context.drop]
  · rcases s with ⟨p, w⟩
    cases w <;> by_cases hr : r = 0 <;> simp [Stream.drop, hr]

/-- Claim C2, counterexample: destroying the owning (non-weak) Stream handle
with pointer 1 while the foreign disconnect call reports failure 5 issues the
disconnect request but never invokes pa_stream_unref, refuting that the
disconnect is never issued without the decrement-reference call. -/
theorem stream_drop_disconnect_without_unref :
    (⟨1, false⟩ : Stream).weak = false ∧
    FCall.paStreamDisconnect ∈ (Stream.drop ⟨1, false⟩ 5).calls ∧
    FCall.paStreamUnref ∉ (Stream.drop ⟨1, false⟩ 5).calls := by
  decide

/-- Claim C2, amended: destroying a non-weak Stream always issues the foreign
disconnect request; pa_stream_unref is invoked exactly when that disconnect
returns zero, and then strictly after the disconnect; when the disconnect
returns non-zero the unref is never reached. Destroying a weak Stream issues
neither call. -/
theorem stream_drop_disconnect_order : ∀ (s : Stream) (r : Int),
    (s.weak = false →
      FCall.paStreamDisconnect ∈ (Stream.drop s r).calls ∧
      (r = 0 → (Stream.drop s r).calls =
        [FCall.paStreamDisconnect, FCall.paStreamUnref]) ∧
      (r ≠ 0 → FCall.paStreamUnref ∉ (Stream.drop s r).calls)) ∧
    (s.weak = true → (Stream.drop s r).calls = []) := by
  intro s r
  rcases s with ⟨p, w⟩
  cases w <;> by_cases hr : r = 0 <;> simp [Stream.drop, hr]

/-- Witness for the amended C2 theorem at the owning Stream with pointer 1 and
a successful foreign disconnect. -/
theorem stream_drop_disconnect_order_witness :
    FCall.paStreamDisconnect ∈ (Stream.drop ⟨1, false⟩ 0).calls ∧
    (Stream.drop ⟨1, false⟩ 0).calls =
      [FCall.paStreamDisconnect, FCall.paStreamUnref] :=
  ⟨((stream_drop_disconnect_order ⟨1, false⟩ 0).1 rfl).1,
   ((stream_drop_disconnect_order ⟨1, false⟩ 0).1 rfl).2.1 rfl⟩

/-- Claim C3, counterexample: when the foreign disconnect call made during
destruction of the non-weak Stream with pointer 1 reports failure 5, the drop
unwraps that failed result and panics instead of propagating the failure as a
value. -/
theorem stream_drop_panics_on_disconnect_failure :
    (Stream.drop ⟨1, false⟩ 5).panicked = true := by
  decide

/-- Claim C3, amended: foreign-reported failures are propagated to the caller
as values and never panic, except: destruction of a non-weak Stream unwraps
the disconnect result and panics exactly when the foreign disconnect returns
non-zero; Stream::get_context feeds the raw foreign return into
Context::from_raw, whose null assertion is active in all builds, so it
panics exactly when the foreign call returned a null handle; and in builds
with debug assertions enabled Stream::write and Stream::write_ext_free
unwrap the sample-spec query and panic when it returns a null pointer. -/
theorem foreign_failure_propagation : ∀ (c : Context) (s : Stream) (r : Int)
    (len p : Nat),
    ((Context.drop c).panicked = false) ∧
    ((Stream.drop s r).panicked = true ↔ s.weak = false ∧ r ≠ 0) ∧
    ((Stream.get_context 0).panicked = true) ∧
    (p ≠ 0 → (Stream.get_context p).panicked = false ∧
      (Stream.get_context p).result = some ⟨p, false⟩) ∧
    ((Stream.write true none len r).panicked = true) ∧
    ((Stream.write false none len r).panicked = false) ∧
    ((Stream.write_ext_free true none len r).panicked = true) ∧
    ((Stream.write_ext_free false none len r).panicked = false) ∧
    (Context.new 0 = none) ∧ (Stream.new 0 = none) ∧
    (r ≠ 0 → Stream.disconnect r = Except.error r ∧
      Context.connect r = Except.error r) := by
  intro c s r len p
  refine ⟨?_, ?_, ?_, ?_, ?_, ?_, ?_, ?_, ?_, ?_, ?_⟩
  · rcases c with ⟨q, w⟩; cases w <;> simp [Context.drop]
  · rcases s with ⟨q, w⟩
    cases w <;> by_cases hr : r = 0 <;> simp [Stream.drop, hr]
  · simp [Stream.get_context]
  · intro hp; constructor <;> simp [Stream.get_context, Context.from_raw, hp]
  · simp [Stream.write]
  · simp [Stream.write]
  · simp [Stream.write_ext_free]
  · simp [Stream.write_ext_free]
  · simp [Context.new]
  · simp [Stream.new]
  · intro hr; exact ⟨by simp [Stream.disconnect, hr], by simp [Context.connect, hr]⟩

/-- Witness for the amended C3 theorem at the weak Stream with pointer 1,
foreign disconnect return 0, the non-null context pointer 7, and the foreign
failure code 5. -/
theorem foreign_failure_propagation_witness :
    (Stream.drop ⟨1, true⟩ 0).panicked = false ∧
    (Stream.get_context 7).result = some ⟨7, false⟩ ∧
    Stream.disconnect 5 = Except.error 5 := by
  have ha := (foreign_failure_propagation ⟨1, false⟩ ⟨1, true⟩ 0 0 7).2.1
  obtain ⟨-, -, -, hg, -, -, -, -, -, -, hd⟩ :=
    foreign_failure_propagation ⟨1, false⟩ ⟨1, true⟩ 5 0 7
  refine ⟨?_, (hg (by decide)).2, (hd (by decide)).1⟩
  have hc : ¬ ((Stream.drop ⟨1, true⟩ 0).panicked = true) := by
    rw [ha]; simp
  simpa using hc

/-- Claim C4: every constructor yields None exactly when the foreign
allocation call returned the null pointer, and otherwise yields Some of a
handle storing that exact pointer with weak set to false. -/
theorem constructors_null_check : ∀ p : Nat,
    (p = 0 → Context.new p = none ∧ Context.new_with_proplist p = none ∧
      Stream.new p = none ∧ Stream.new_with_proplist p = none ∧
      Stream.new_extended p = none) ∧
    (p ≠ 0 → Context.new p = some ⟨p, false⟩ ∧
      Context.new_with_proplist p = some ⟨p, false⟩ ∧
      Stream.new p = some ⟨p, false⟩ ∧
      Stream.new_with_proplist p = some ⟨p, false⟩ ∧
      Stream.new_extended p = some ⟨p, false⟩) := by
  intro p
  constructor <;> intro h <;>
    simp [Context.new, Context.new_with_proplist, Stream.new,
      Stream.new_with_proplist, Stream.new_extended, Context.from_raw,
      Stream.from_raw, h]

/-- Witness for the C4 theorem at the null pointer and the pointer 7. -/
theorem constructors_null_check_witness :
    Context.new 0 = none ∧ Stream.new 7 = some ⟨7, false⟩ :=
  ⟨((constructors_null_check 0).1 rfl).1,
   ((constructors_null_check 7).2 (by decide)).2.2.1⟩

/-- Claim C5: every sentinel-based index and size query yields None exactly on
the reserved sentinel (maximum u32 for index queries, maximum usize for size
queries, -1 for the signed underflow index) and passes any other returned
value through unchanged. -/
theorem sentinel_queries : ∀ (r : Nat) (i : Int),
    (Context.get_index INVALID_INDEX = none ∧
      Context.get_server_protocol_version INVALID_INDEX = none ∧
      Context.get_tile_size USIZE_MAX = none ∧
      Stream.get_index INVALID_INDEX = none ∧
      Stream.get_device_index INVALID_INDEX = none ∧
      Stream.writable_size USIZE_MAX = none ∧
      Stream.readable_size USIZE_MAX = none ∧
      Stream.get_underflow_index (-1) = none ∧
      Stream.get_monitor_stream INVALID_INDEX = none) ∧
    (r ≠ INVALID_INDEX → Context.get_index r = some r ∧
      Context.get_server_protocol_version r = some r ∧
      Stream.get_index r = some r ∧ Stream.get_device_index r = some r ∧
      Stream.get_monitor_stream r = some r) ∧
    (r ≠ USIZE_MAX → Context.get_tile_size r = some r ∧
      Stream.writable_size r = some r ∧ Stream.readable_size r = some r) ∧
    (i ≠ -1 → Stream.get_underflow_index i = some i) := by
  intro r i
  refine ⟨?_, fun h => ?_, fun h => ?_, fun h => ?_⟩
  · simp [Context.get_index, Context.get_server_protocol_version,
      Context.get_tile_size, Stream.get_index, Stream.get_device_index,
      Stream.writable_size, Stream.readable_size, Stream.get_underflow_index,
      Stream.get_monitor_stream]
  · simp [Context.get_index, Context.get_server_protocol_version,
      Stream.get_index, Stream.get_device_index, Stream.get_monitor_stream, h]
  · simp [Context.get_tile_size, Stream.writable_size, Stream.readable_size, h]
  · simp [Stream.get_underflow_index, h]

/-- Witness for the C5 theorem at the sentinels and at the value 3. -/
theorem sentinel_queries_witness :
    Context.get_index INVALID_INDEX = none ∧ Context.get_index 3 = some 3 ∧
    Stream.get_underflow_index 3 = some 3 :=
  ⟨(sentinel_queries 3 3).1.1, ((sentinel_queries 3 3).2.1 (by decide)).1,
   (sentinel_queries 3 3).2.2.2 (by decide)⟩

/-- Claim C6: every integer-returning forwarded call translates a zero
foreign return to Ok and any non-zero foreign return e to Err e carrying the
raw code; for the write calls this holds whenever the foreign call is reached
(no panic). -/
theorem int_result_translation : ∀ (r : Int) (dbg : Bool) (fs : Option Nat)
    (len : Nat),
    (r = 0 → Context.connect r = Except.ok () ∧
      Context.load_cookie_from_file r = Except.ok () ∧
      Stream.connect_playback r = Except.ok () ∧
      Stream.connect_record r = Except.ok () ∧
      Stream.connect_upload r = Except.ok () ∧
      Stream.finish_upload r = Except.ok () ∧
      Stream.disconnect r = Except.ok () ∧
      Stream.cancel_write r = Except.ok () ∧
      Stream.discard r = Except.ok () ∧
      Stream.set_monitor_stream r = Except.ok ()) ∧
    (r ≠ 0 → Context.connect r = Except.error r ∧
      Context.load_cookie_from_file r = Except.error r ∧
      Stream.connect_playback r = Except.error r ∧
      Stream.connect_record r = Except.error r ∧
      Stream.connect_upload r = Except.error r ∧
      Stream.finish_upload r = Except.error r ∧
      Stream.disconnect r = Except.error r ∧
      Stream.cancel_write r = Except.error r ∧
      Stream.discard r = Except.error r ∧
      Stream.set_monitor_stream r = Except.error r) ∧
    ((Stream.write dbg fs len r).panicked = false →
      (Stream.write dbg fs len r).result =
        some (if r = 0 then Except.ok () else Except.error r)) ∧
    ((Stream.write_ext_free dbg fs len r).panicked = false →
      (Stream.write_ext_free dbg fs len r).result =
        some (if r = 0 then Except.ok () else Except.error r)) := by
  intro r dbg fs len
  refine ⟨fun h => ?_, fun h => ?_, Stream.write_result dbg fs len r,
    Stream.write_ext_free_result dbg fs len r⟩ <;>
  · simp [Context.connect, Context.load_cookie_from_file,
      Stream.connect_playback, Stream.connect_record, Stream.connect_upload,
      Stream.finish_upload, Stream.disconnect, Stream.cancel_write,
      Stream.discard, Stream.set_monitor_stream, h]

/-- Witness for the C6 theorem at the foreign returns 0 and 5. -/
theorem int_result_translation_witness :
    Context.connect 0 = Except.ok () ∧ Stream.disconnect 5 = Except.error 5 ∧
    (Stream.write false none 3 5).result = some (Except.error 5) := by
  refine ⟨((int_result_translation 0 false none 3).1 rfl).1,
    ((int_result_translation 5 false none 3).2.1 (by decide)).2.2.2.2.2.2.1,
    ?_⟩
  have h := (int_result_translation 5 false none 3).2.2.1 (by decide)
  simpa using h

/-- Claim C7: Stream::peek with a zero foreign return yields Empty exactly for
a null data pointer with zero size, a Hole of exactly the returned size for a
null pointer with non-zero size, and Data of exactly the returned pointer and
length otherwise; a non-zero foreign return e yields Err e. The iff forms
make the three success outcomes mutually exclusive and the existence conjunct
makes them exhaustive. -/
theorem peek_outcomes : ∀ (p n : Nat) (e : Int),
    (Stream.peek 0 p n = Except.ok PeekResult.Empty ↔ p = 0 ∧ n = 0) ∧
    (∀ m, Stream.peek 0 p n = Except.ok (PeekResult.Hole m) ↔
      p = 0 ∧ n ≠ 0 ∧ m = n) ∧
    (∀ q m, Stream.peek 0 p n = Except.ok (PeekResult.Data q m) ↔
      p ≠ 0 ∧ q = p ∧ m = n) ∧
    (∃ res, Stream.peek 0 p n = Except.ok res) ∧
    (e ≠ 0 → Stream.peek e p n = Except.error e) := by
  intro p n e
  refine ⟨?_, fun m => ?_, fun q m => ?_, ?_, fun he => ?_⟩
  · by_cases hp : p = 0 <;> by_cases hn : n = 0 <;> simp [Stream.peek, hp, hn]
  · by_cases hp : p = 0 <;> by_cases hn : n = 0 <;>
      (simp [Stream.peek, hp, hn]; try tauto)
  · by_cases hp : p = 0 <;> by_cases hn : n = 0 <;>
      (simp [Stream.peek, hp, hn]; try tauto)
  · by_cases hp : p = 0 <;> by_cases hn : n = 0 <;> simp [Stream.peek, hp, hn]
  · simp [Stream.peek, he]

/-- Witness for the C7 theorem at a hole of size 8 and at the failure code 5. -/
theorem peek_outcomes_witness :
    Stream.peek 0 0 8 = Except.ok (PeekResult.Hole 8) ∧
    Stream.peek 5 0 8 = Except.error 5 :=
  ⟨((peek_outcomes 0 8 5).2.1 8).2 ⟨rfl, by decide, rfl⟩,
   (peek_outcomes 0 8 5).2.2.2.2 (by decide)⟩

/-- Claim C8: get_time and get_latency translate the negated NoData code to a
success-shaped no-data outcome and never to an Err; on a zero foreign return
get_latency yields Negative exactly when the foreign negative flag is 1 and
Positive otherwise, and get_time yields the written microseconds; any other
non-zero return e yields Err e. -/
theorem timing_no_data_outcomes : ∀ (u : Nat) (neg e : Int),
    (Stream.get_time (-ErrorCode.NoData) u = Except.ok none) ∧
    (Stream.get_latency (-ErrorCode.NoData) u neg = Except.ok Latency.None) ∧
    (Stream.get_time 0 u = Except.ok (some u)) ∧
    (neg = 1 → Stream.get_latency 0 u neg = Except.ok (Latency.Negative u)) ∧
    (neg ≠ 1 → Stream.get_latency 0 u neg = Except.ok (Latency.Positive u)) ∧
    (e ≠ 0 → e ≠ -ErrorCode.NoData →
      Stream.get_time e u = Except.error e ∧
      Stream.get_latency e u neg = Except.error e) := by
  intro u neg e
  refine ⟨?_, ?_, ?_, fun h => ?_, fun h => ?_, fun h1 h2 => ⟨?_, ?_⟩⟩
  · norm_num [Stream.get_time, ErrorCode.NoData]
  · norm_num [Stream.get_latency, ErrorCode.NoData]
  · simp [Stream.get_time]
  · simp [Stream.get_latency, h]
  · simp [Stream.get_latency, h]
  · simp only [ErrorCode.NoData] at h2
    simp [Stream.get_time, ErrorCode.NoData, h1, h2]
  · simp only [ErrorCode.NoData] at h2
    simp [Stream.get_latency, ErrorCode.NoData, h1, h2]

/-- Witness for the C8 theorem at microseconds 9, negative flag 1, failure
code 5. -/
theorem timing_no_data_outcomes_witness :
    Stream.get_time (-ErrorCode.NoData) 9 = Except.ok none ∧
    Stream.get_latency 0 9 1 = Except.ok (Latency.Negative 9) ∧
    Stream.get_time 5 9 = Except.error 5 :=
  ⟨(timing_no_data_outcomes 9 1 5).1,
   (timing_no_data_outcomes 9 1 5).2.2.2.1 rfl,
   ((timing_no_data_outcomes 9 1 5).2.2.2.2.2 (by decide) (by decide)).1⟩

/-- Claim C9, counterexample: in a build without debug assertions (the
debug_assert_eq of the source compiles to nothing), Stream::write with frame
size 4 and the misaligned data length 3 reaches the foreign pa_stream_write
call without any precondition violation being signaled. -/
theorem write_misaligned_reaches_foreign :
    3 % 4 ≠ 0 ∧
    FCall.paStreamWrite ∈ (Stream.write false (some 4) 3 7).calls ∧
    (Stream.write false (some 4) 3 7).panicked = false := by
  decide

/-- Claim C9, amended: only in builds with debug assertions enabled does a
data length that is not a multiple of the active frame size signal the
precondition violation (a panic) before the foreign write call, which is then
never reached; in builds without debug assertions no check is performed and
the foreign call is reached with the misaligned length. Same for
write_ext_free. -/
theorem write_alignment_check : ∀ (fs len : Nat) (r : Int),
    (0 < fs → len % fs ≠ 0 →
      (Stream.write true (some fs) len r).panicked = true ∧
      FCall.paStreamWrite ∉ (Stream.write true (some fs) len r).calls ∧
      (Stream.write_ext_free true (some fs) len r).panicked = true ∧
      FCall.paStreamWriteExtFree ∉
        (Stream.write_ext_free true (some fs) len r).calls) ∧
    (FCall.paStreamWrite ∈ (Stream.write false (some fs) len r).calls ∧
      FCall.paStreamWriteExtFree ∈
        (Stream.write_ext_free false (some fs) len r).calls) := by
  intro fs len r
  constructor
  · intro hfs hrem
    have hf : fs ≠ 0 := Nat.pos_iff_ne_zero.mp hfs
    refine ⟨?_, ?_, ?_, ?_⟩ <;>
      simp [Stream.write, Stream.write_ext_free, checked_rem, hf, hrem]
  · constructor <;> simp [Stream.write, Stream.write_ext_free]

/-- Witness for the amended C9 theorem at frame size 4, length 3, foreign
return 7. -/
theorem write_alignment_check_witness :
    (Stream.write true (some 4) 3 7).panicked = true ∧
    FCall.paStreamWrite ∉ (Stream.write true (some 4) 3 7).calls := by
  have h := (write_alignment_check 4 3 7).1 (by decide) (by decide)
  exact ⟨h.1, h.2.1⟩

/-- Claim C10: cloning any Context handle, weak ones included, invokes
pa_context_ref exactly once and yields a handle with the same pointer and
weak set to false, whose own destruction invokes pa_context_unref exactly
once, while destruction of a weak original invokes it zero times. -/
theorem clone_ref_and_owning : ∀ (c : Context) (p : Nat),
    (Context.clone c).calls.count FCall.paContextRef = 1 ∧
    (Context.clone c).result = some ⟨c.ptr, false⟩ ∧
    (Context.drop ⟨c.ptr, false⟩).calls.count FCall.paContextUnref = 1 ∧
    (Context.clone (Context.from_raw_weak p)).result = some ⟨p, false⟩ ∧
    (Context.drop (Context.from_raw_weak p)).calls.count
      FCall.paContextUnref = 0 := by
  intro c p
  refine ⟨?_, ?_, ?_, ?_, ?_⟩ <;>
    simp [Context.clone, Context.drop, Context.from_raw,
      Context.from_raw_weak]

end Pulse
